import Mathlib

/-!
Shallow embedding of the travel_hi incident-reporting service
(`src/api/app/utils/moderation.py`, `src/api/app/routers/v1/endpoints/report.py`,
`src/api/app/routers/v1/endpoints/user.py`) and proofs of the specified
properties of the moderation gate, the incident-creation pipeline and the
self-or-permission access rule.

Texts are embedded as `List Char`.  Python's `re` patterns used by the local
profanity filter have a fixed shape (literals, character classes, `*`, `{2,}`,
`\b`), so they are embedded as a small pattern datatype with a backtracking
matcher.  Unicode tables (`unicodedata`, `str.lower`, `\w`) are embedded on
the repertoire the program works over: ASCII plus the Polish diacritic
letters; characters outside that repertoire decompose to themselves and are
classified as non-word, matching Python on every input appearing below.
-/

set_option autoImplicit false

namespace TravelHi

/-! ### Character-level helpers (Python `str.strip`, `str.lower`, `re` classes) -/

/-- Python `str.strip()` whitespace class (ASCII part: space, \t, \n, \r, \v, \f). -/
def pyIsSpace (c : Char) : Bool :=
  c.isWhitespace || c = Char.ofNat 11 || c = Char.ofNat 12

/-- Python `str.strip()`: drop whitespace from both ends. -/
def pyStrip (s : List Char) : List Char :=
  ((s.dropWhile pyIsSpace).reverse.dropWhile pyIsSpace).reverse

/-- The Polish diacritic letters occurring in the repertoire of the filter. -/
def isPolishLetter (c : Char) : Bool :=
  c = 'ą' || c = 'ć' || c = 'ę' || c = 'ł' || c = 'ń' || c = 'ó' ||
  c = 'ś' || c = 'ź' || c = 'ż' ||
  c = 'Ą' || c = 'Ć' || c = 'Ę' || c = 'Ł' || c = 'Ń' || c = 'Ó' ||
  c = 'Ś' || c = 'Ź' || c = 'Ż'

/-- Python `str.lower` on the ASCII + Polish repertoire. -/
def pyLowerChar (c : Char) : Char :=
  if c = 'Ą' then 'ą' else if c = 'Ć' then 'ć' else if c = 'Ę' then 'ę' else
  if c = 'Ł' then 'ł' else if c = 'Ń' then 'ń' else if c = 'Ó' then 'ó' else
  if c = 'Ś' then 'ś' else if c = 'Ź' then 'ź' else if c = 'Ż' then 'ż' else
  c.toLower

/-- Word character `\w` of `re` (with `re.UNICODE`): alphanumeric or underscore,
including the Polish letters of the repertoire. -/
def isWordChar (c : Char) : Bool :=
  c.isAlphanum || c = '_' || isPolishLetter c

/-- The class `[\W_]` used between stem letters: `\W ∪ {_}`, i.e. everything
that is not a letter or digit. -/
def isSepChar (c : Char) : Bool :=
  !(c.isAlphanum || isPolishLetter c)

/-- The mask class `[*x$#]` of the hand-built obfuscation patterns
(`re.IGNORECASE` also admits `X`). -/
def isMaskChar (c : Char) : Bool :=
  c = '*' || c = '$' || c = '#' || pyLowerChar c = 'x'

/-! ### `unicodedata.normalize("NFKD", ·)` and `_normalize` -/

/-- NFKD decomposition on the ASCII + Polish repertoire: each Polish diacritic
letter decomposes into its base letter followed by a combining mark
(U+0301 acute, U+0307 dot above, U+0328 ogonek); `ł`/`Ł` have no
decomposition; every other character decomposes to itself. -/
def nfkdChar (c : Char) : List Char :=
  if c = 'ą' then ['a', Char.ofNat 0x328] else
  if c = 'ć' then ['c', Char.ofNat 0x301] else
  if c = 'ę' then ['e', Char.ofNat 0x328] else
  if c = 'ń' then ['n', Char.ofNat 0x301] else
  if c = 'ó' then ['o', Char.ofNat 0x301] else
  if c = 'ś' then ['s', Char.ofNat 0x301] else
  if c = 'ź' then ['z', Char.ofNat 0x301] else
  if c = 'ż' then ['z', Char.ofNat 0x307] else
  if c = 'Ą' then ['A', Char.ofNat 0x328] else
  if c = 'Ć' then ['C', Char.ofNat 0x301] else
  if c = 'Ę' then ['E', Char.ofNat 0x328] else
  if c = 'Ń' then ['N', Char.ofNat 0x301] else
  if c = 'Ó' then ['O', Char.ofNat 0x301] else
  if c = 'Ś' then ['S', Char.ofNat 0x301] else
  if c = 'Ź' then ['Z', Char.ofNat 0x301] else
  if c = 'Ż' then ['Z', Char.ofNat 0x307] else
  [c]

/-- Combining-mark test `unicodedata.combining(ch) != 0` for the marks produced by `nfkdChar`
(the Combining Diacritical Marks block). -/
def isCombiningMark (c : Char) : Bool :=
  0x300 ≤ c.toNat && c.toNat ≤ 0x36F

/-- Source `_normalize` (moderation.py:29-32): NFKD-decompose, drop combining marks,
lower-case. -/
def normalize (s : List Char) : List Char :=
  (((s.map nfkdChar).flatten).filter (fun c => !isCombiningMark c)).map pyLowerChar

/-! ### The pattern language of the local filter -/

/-- The shape of the regular expressions built in moderation.py: literals
(matched case-insensitively), one character of a class, a class repeated zero
or more times (`{2,}` is two class characters followed by a star) and the
word boundary `\b`. -/
inductive RE where
  | lit (c : Char)
  | cls (f : Char → Bool)
  | star (f : Char → Bool)
  | wordB

/-- Is the first character of `s` a word character (false at end of input)? -/
def headIsWord : List Char → Bool
  | [] => false
  | c :: _ => isWordChar c

/-- Matching loop for `f*` followed by the rest of the pattern, the rest
given as the continuation `k`: try consuming zero characters of class `f`,
else consume one and continue.  This explores exactly the alternatives
Python's backtracking explores for `f*`. -/
def starLoop (f : Char → Bool) (k : Bool → List Char → Bool) : Bool → List Char → Bool
  | pw, [] => k pw []
  | pw, d :: ds => k pw (d :: ds) || (f d && starLoop f k (isWordChar d) ds)

/-- Backtracking matcher for a pattern anchored at the current position.
`pw` records whether the character just before the current position is a word
character (false at the start of the input), as needed by `\b`.  Returning
`true` means some way of consuming input matches the whole pattern, which
agrees with Python's `re` on match success (greediness only affects which
match is found, not whether one exists). -/
def reMatch : List RE → Bool → List Char → Bool
  | [] => fun _ _ => true
  | .wordB :: ps => fun pw s => (pw != headIsWord s) && reMatch ps pw s
  | .lit c :: ps => fun _ s =>
      match s with
      | [] => false
      | d :: ds => pyLowerChar d = c && reMatch ps (isWordChar d) ds
  | .cls f :: ps => fun _ s =>
      match s with
      | [] => false
      | d :: ds => f d && reMatch ps (isWordChar d) ds
  | .star f :: ps => starLoop f (reMatch ps)

/-- Search loop of `pattern.search(s)`: try to match at every position.  `pw` is the word-ness
of the previous character, initially false (start of input). -/
def reSearchAux (p : List RE) (pw : Bool) : List Char → Bool
  | [] => reMatch p pw []
  | d :: ds => reMatch p pw (d :: ds) || reSearchAux p (isWordChar d) ds

/-- Truth of `pattern.search(s) is not None`. -/
def reSearch (p : List RE) (s : List Char) : Bool :=
  reSearchAux p false s

/-- Source `_fuzzy` (moderation.py:35-37): `\b` then each stem letter followed by
`[\W_]*`. -/
def fuzzy (stem : List Char) : List RE :=
  .wordB :: (stem.map (fun c => [RE.lit c, RE.star isSepChar])).flatten

/-- Source `_STRONG_PL_STEMS` (moderation.py:40-48). -/
def STRONG_PL_STEMS : List (List Char) :=
  ["kurwa".data, "chuj".data, "huj".data, "jeb".data, "pierdol".data,
   "spierdal".data, "skurwysyn".data, "pizd".data]

/-- Source `_PROFANITY_PATTERNS` (moderation.py:50). -/
def PROFANITY_PATTERNS : List (List RE) :=
  STRONG_PL_STEMS.map fuzzy

/-- Source `_OBFUSCATED` (moderation.py:52-56): the three hand-built mask patterns,
with `[*x$#]{2,}` spelled as two mask characters followed by `[*x$#]*`. -/
def OBFUSCATED : List (List RE) :=
  [ [.wordB, .lit 'k', .star isSepChar, .cls isMaskChar, .cls isMaskChar,
     .star isMaskChar, .star isSepChar, .lit 'a', .wordB],
    [.wordB, .lit 'p', .star isSepChar, .cls isMaskChar, .cls isMaskChar,
     .star isMaskChar, .star isSepChar, .lit 'd', .star isSepChar, .lit 'a', .wordB],
    [.wordB, .lit 's', .star isSepChar, .lit 'p', .lit 'i', .lit 'e', .lit 'r',
     .star isSepChar, .cls isMaskChar, .cls isMaskChar, .star isMaskChar,
     .star isSepChar, .lit 'a', .lit 'j', .wordB] ]

/-- Source `_contains_strong_profanity` (moderation.py:59-64): strip; empty text never
matches; otherwise some pattern matches the raw or the normalized form. -/
def contains_strong_profanity (text : List Char) : Bool :=
  let t := pyStrip text
  if t = [] then false
  else
    let norm := normalize t
    (PROFANITY_PATTERNS ++ OBFUSCATED).any (fun p => reSearch p t || reSearch p norm)

/-! ### The remote classifier and `moderate_text` -/

/-- One element of `resp.results`: the classifier's flagged boolean and its
category labels with their truthiness (`getattr(res, "categories", {})`). -/
structure RemoteResult where
  flagged : Bool
  categories : List (List Char × Bool)
deriving DecidableEq

/-- Outcome of one `_client.moderations.create` call: a response carrying a
list of results, or a raised transport/provider error. -/
inductive ModelCall where
  | ok (results : List RemoteResult)
  | err
deriving DecidableEq

/-- The remote environment: what the primary model
(`omni-moderation-latest`) and the secondary model
(`text-moderation-latest`) would return for the submitted text. -/
structure RemoteEnv where
  primary : ModelCall
  secondary : ModelCall
deriving DecidableEq

/-- Source `_call_moderation_model` (moderation.py:67-72): try the primary model;
on its error fall back to the secondary model, whose error propagates. -/
def call_moderation_model (env : RemoteEnv) : ModelCall :=
  match env.primary with
  | .ok rs => .ok rs
  | .err => env.secondary

/-- Source `BLOCK_CATEGORIES` (moderation.py:18-24). -/
def BLOCK_CATEGORIES : List (List Char) :=
  ["harassment".data, "harassment/threats".data,
   "hate".data, "hate/threats".data,
   "violence".data, "graphic-violence".data,
   "sexual".data, "sexual/minors".data,
   "illicit-behavior".data, "self-harm".data, "self-harm/instructions".data]

/-- Python `str.lower` on a category label. -/
def pyStrLower (s : List Char) : List Char :=
  s.map pyLowerChar

/-- Result of `moderate_text` together with which stages ran: `verdict` is the
returned boolean (true = allowed), `localInvoked` records whether
`_contains_strong_profanity` was evaluated, `remoteInvoked` whether
`_call_moderation_model` was reached. -/
structure ModerationTrace where
  verdict : Bool
  localInvoked : Bool
  remoteInvoked : Bool
deriving DecidableEq

/-- Source `moderate_text` (moderation.py:81-106), instrumented with the stage trace.
The strictness flag `STRICT_PROFANITY` and the policy flag `FAIL_CLOSED` are
the process-wide configuration read from the environment at startup
(moderation.py:14,16).  An empty `results` list makes `resp.results[0]`
raise inside the `try`, landing in the same `except` as a transport error. -/
def moderate_text_trace (STRICT_PROFANITY FAIL_CLOSED : Bool) (env : RemoteEnv)
    (text : Option (List Char)) : ModerationTrace :=
  let t := pyStrip (text.getD [])
  if t = [] then ⟨true, false, false⟩
  else if STRICT_PROFANITY && contains_strong_profanity t then ⟨false, true, false⟩
  else
    match call_moderation_model env with
    | .err => ⟨!FAIL_CLOSED, STRICT_PROFANITY, true⟩
    | .ok [] => ⟨!FAIL_CLOSED, STRICT_PROFANITY, true⟩
    | .ok (res :: _) =>
        -- the source sorts `active_cats` before logging; sorting does not
        -- change the `any` over the list, so the order is kept as filtered
        let active_cats := (res.categories.filter (fun kv => kv.2)).map (fun kv => kv.1)
        let block_due_to_cats := active_cats.any (fun c => BLOCK_CATEGORIES.contains (pyStrLower c))
        let block := res.flagged || block_due_to_cats
        ⟨!block, STRICT_PROFANITY, true⟩

/-- Plain `moderate_text`: the boolean the Python function returns
(true = allowed, false = blocked). -/
def moderate_text (STRICT_PROFANITY FAIL_CLOSED : Bool) (env : RemoteEnv)
    (text : Option (List Char)) : Bool :=
  (moderate_text_trace STRICT_PROFANITY FAIL_CLOSED env text).verdict

/-! ### Permission model and the self-or-permission gates (user.py) -/

/-- Roles of the access-control model (`app.schemas.user.Role`). -/
inductive Role where
  | USER
  | MODERATOR
  | ADMIN
deriving DecidableEq

/-- Permissions of the access-control model (`app.schemas.user.Permission`);
the ones the endpoints in scope consult. -/
inductive Permission where
  | READ_USER
  | UPDATE_USER
  | MANAGE_ROLES
deriving DecidableEq

/-- Modelled from the spec: the fixed Role → implicit-permission table
(`app.core.rbac` is not in src/): USER has no implicit capability, MODERATOR
may read users, ADMIN has the full set. -/
def rolePermissions : Role → List Permission
  | .USER => []
  | .MODERATOR => [.READ_USER]
  | .ADMIN => [.READ_USER, .UPDATE_USER, .MANAGE_ROLES]

/-- A user record (`app.schemas.user.User`): identity, role, explicitly
granted extra permissions, disabled flag. -/
structure UserRec where
  id : Nat
  username : List Char
  role : Role
  permissions : List Permission
  disabled : Bool
deriving DecidableEq

/-- Modelled from the spec: a user's effective permission set is the role's
implicit set united with the explicitly granted permissions. -/
def effectivePermissions (u : UserRec) : List Permission :=
  rolePermissions u.role ++ u.permissions

/-- Modelled from the spec: `has_permission(user, permission)`
(`app.core.rbac` is not in src/) — membership in the effective set. -/
def has_permission (u : UserRec) (p : Permission) : Bool :=
  effectivePermissions u |>.contains p

/-- An HTTP error response (`HTTPException`): status code and detail text. -/
structure HTTPExc where
  status : Nat
  detail : String
deriving DecidableEq

/-- The permission check of `update_user_details` (user.py:131-135):
403 when the target id differs from `str(current_user.id)` and the caller
lacks `UPDATE_USER`; otherwise the check passes. -/
def update_user_details_check (current_user : UserRec) (user_id : List Char) :
    Except HTTPExc Unit :=
  if (toString current_user.id).data ≠ user_id ∧
      ¬ has_permission current_user Permission.UPDATE_USER = true then
    .error ⟨403, "Not enough permissions to update this user"⟩
  else
    .ok ()

/-- The permission check of `delete_user_endpoint` (user.py:386-390): the same
self-or-`UPDATE_USER` condition guarding account deletion. -/
def delete_user_endpoint_check (current_user : UserRec) (user_id : List Char) :
    Except HTTPExc Unit :=
  if (toString current_user.id).data ≠ user_id ∧
      ¬ has_permission current_user Permission.UPDATE_USER = true then
    .error ⟨403, "Not enough permissions to update this user"⟩
  else
    .ok ()

/-! ### The incident-creation pipeline (report.py `create_report`) -/

/-- Incident types (`app.schemas.report.ReportType`, spec §3). -/
inductive ReportType where
  | accident
  | delay
  | blockage
  | other
deriving DecidableEq

/-- An uploaded file: only the filename is consulted by `create_report`. -/
structure PhotoFile where
  filename : List Char
deriving DecidableEq

/-- Modelled from the spec: the `Location` schema (`app.schemas.report` is
not in src/) — lat ∈ [-90, 90], lng ∈ [-180, 180]; pydantic raises
`ValidationError` outside these ranges.  Coordinates are embedded as
rationals. -/
def locationOk (lat lng : ℚ) : Prop :=
  -90 ≤ lat ∧ lat ≤ 90 ∧ -180 ≤ lng ∧ lng ≤ 180

instance (lat lng : ℚ) : Decidable (locationOk lat lng) := by
  unfold locationOk; infer_instance

/-- Python truthiness of an `Optional[str]`: `None` and the empty string are
falsy. -/
def pyTruthyOpt (s : Option (List Char)) : Bool :=
  match s with
  | some (_ :: _) => true
  | _ => false

/-- The exact keyword arguments `create_report` passes to `svc.create`
(report.py:119-126).  There is no user/owner argument. -/
structure StoreArgs where
  type_ : ReportType
  lat : ℚ
  lng : ℚ
  name : Option (List Char)
  description : Option (List Char)
  photo_path : Option (List Char)
deriving DecidableEq

/-- A persisted report row. -/
structure StoredReport where
  args : StoreArgs
  likes : Nat
  confirmations : Nat
  denials : Nat
deriving DecidableEq

/-- Modelled from the spec: `svc.create` (`app.services.report` is not in
src/) persists the new report with its three counters initialized to zero
(spec §4.4 step 5) and returns the row. -/
def svcCreate (a : StoreArgs) : StoredReport :=
  ⟨a, 0, 0, 0⟩

/-- The broadcast summary payload built at report.py:131-138. -/
structure BroadcastPayload where
  user : List Char
  message : List Char
  lat : ℚ
  lng : ℚ
  likes : Nat
  timestamp : List Char
deriving DecidableEq

/-- The collaborators of `create_report`: token resolution
(`get_current_user`, raising = `.error`), the remote-classifier behaviour per
moderated text, image storage (`validate_and_store_image`, raising an HTTP
validation error = `.error`), and the clock
(`datetime.utcnow().isoformat()`). -/
structure CreateEnv where
  resolveUser : List Char → Except Unit UserRec
  remote : Option (List Char) → RemoteEnv
  storeImage : PhotoFile → Except HTTPExc (List Char)
  nowIso : List Char

instance {ε α : Type} [DecidableEq ε] [DecidableEq α] : DecidableEq (Except ε α)
  | .ok a, .ok b => by
      exact if h : a = b then .isTrue (by rw [h]) else .isFalse (by simp [h])
  | .ok _, .error _ => .isFalse (by simp)
  | .error _, .ok _ => .isFalse (by simp)
  | .error a, .error b => by
      exact if h : a = b then .isTrue (by rw [h]) else .isFalse (by simp [h])

/-- Everything observable about one `create_report` call: the HTTP response,
the user the token resolved to (only printed by the source, never used
downstream), the texts submitted to `moderate_text`, the `svc.create`
argument records, and the payloads handed to `manager.broadcast`. -/
structure CreateOutcome where
  response : Except HTTPExc StoredReport
  resolvedUser : Option UserRec
  moderated : List (List Char)
  persisted : List StoreArgs
  broadcasts : List BroadcastPayload
deriving DecidableEq

/-- The user `create_report` resolves from the caller token
(report.py:93-99): none when the token is falsy; otherwise the resolved user,
with a raised `HTTPException` swallowed into none. -/
def resolvedUserOf (env : CreateEnv) (token : Option (List Char)) : Option UserRec :=
  if pyTruthyOpt token then
    match env.resolveUser (token.getD []) with
    | .ok u => some u
    | .error _ => none
  else none

/-- The photo step (report.py:117): store the image when a photo with a
truthy filename was uploaded; a raised validation error propagates. -/
def photoStepOf (env : CreateEnv) (photo : Option PhotoFile) :
    Except HTTPExc (Option (List Char)) :=
  match photo with
  | some p => if p.filename ≠ [] then (env.storeImage p).map some else .ok none
  | none => .ok none

/-- The pipeline of `create_report` after validation and token resolution
(report.py:101-142): moderation of description then name (400 on block),
optional image storage, persistence, and the fire-and-forget broadcast.
`user` is the resolved user; the source only prints it, so it appears solely
in the outcome's `resolvedUser` field. -/
def create_pipeline (STRICT_PROFANITY FAIL_CLOSED : Bool) (env : CreateEnv)
    (type_ : ReportType) (lat lng : ℚ)
    (name description : Option (List Char)) (photo : Option PhotoFile)
    (user : Option UserRec) : CreateOutcome :=
    if pyTruthyOpt description &&
        !moderate_text STRICT_PROFANITY FAIL_CLOSED (env.remote description) description then
      { response := .error ⟨400, "Description contains inappropriate content."⟩,
        resolvedUser := user, moderated := [description.getD []],
        persisted := [], broadcasts := [] }
    else
      let moderated1 := if pyTruthyOpt description then [description.getD []] else []
      if pyTruthyOpt name &&
          !moderate_text STRICT_PROFANITY FAIL_CLOSED (env.remote name) name then
        { response := .error ⟨400, "Name contains inappropriate content."⟩,
          resolvedUser := user, moderated := moderated1 ++ [name.getD []],
          persisted := [], broadcasts := [] }
      else
        let moderated2 := moderated1 ++ (if pyTruthyOpt name then [name.getD []] else [])
        match photoStepOf env photo with
        | .error e =>
            { response := .error e, resolvedUser := user, moderated := moderated2,
              persisted := [], broadcasts := [] }
        | .ok photo_name =>
            let args : StoreArgs := ⟨type_, lat, lng, name, description, photo_name⟩
            let obj := svcCreate args
            let payload : BroadcastPayload :=
              { user := "Anonim".data,
                message := if pyTruthyOpt description then description.getD []
                           else if pyTruthyOpt name then name.getD []
                           else "Nowe zgłoszenie".data,
                lat := lat, lng := lng, likes := obj.likes,
                timestamp := env.nowIso ++ "Z".data }
            { response := .ok obj, resolvedUser := user, moderated := moderated2,
              persisted := [args], broadcasts := [payload] }

/-- Source `create_report` (report.py:43-142): location validation (422), best-effort
token resolution, then the pipeline above.  The response value is the
persisted row (`ReportRead.from_orm_with_photo` only rewrites the photo field
to an absolute URL, which no claim consults). -/
def create_report (STRICT_PROFANITY FAIL_CLOSED : Bool) (env : CreateEnv)
    (type_ : ReportType) (lat lng : ℚ)
    (name description : Option (List Char)) (photo : Option PhotoFile)
    (token : Option (List Char)) : CreateOutcome :=
  if ¬ locationOk lat lng then
    { response := .error ⟨422, "Invalid coordinates. Latitude must be between -90 and 90, longitude between -180 and 180."⟩,
      resolvedUser := none, moderated := [], persisted := [], broadcasts := [] }
  else
    create_pipeline STRICT_PROFANITY FAIL_CLOSED env type_ lat lng name description photo
      (resolvedUserOf env token)

/-! ## Theorems: the moderation gate -/

/-- Claim C9: for absent (`None`) or empty input text, `moderate_text`
returns allowed (true) without invoking the local filter or the remote
classifier, under every configuration and remote environment. -/
theorem moderate_text_empty_allowed (strict fc : Bool) (env : RemoteEnv) :
    moderate_text_trace strict fc env none = ⟨true, false, false⟩ ∧
    moderate_text_trace strict fc env (some []) = ⟨true, false, false⟩ :=
  ⟨rfl, rfl⟩

/-- Claim C1, counterexample: with strictness enabled, the listed obfuscated
form "k*rwa" is not matched by the local filter (the fuzzy stem pattern
requires the letter u, the mask pattern at least two mask symbols), so
`moderate_text` does invoke the remote classifier on it and returns allowed
when the classifier reports it clean — against "returns blocked without
invoking the remote classifier". -/
theorem kstar_rwa_not_blocked_locally :
    contains_strong_profanity "k*rwa".data = false ∧
    moderate_text_trace true false ⟨.ok [⟨false, []⟩], .err⟩ (some "k*rwa".data)
      = ⟨true, true, true⟩ := by
  decide

/-- Claim C1 (amended): for every text whose raw or normalized form the local
filter matches — a profanity-stem pattern under diacritic/case normalization
or a hand-built obfuscation pattern; this includes "kurwa" and "k.u.r.w.a"
but not "k*rwa" — with the strictness flag enabled, `moderate_text` returns
blocked without invoking the remote classifier. -/
theorem local_profanity_blocks_without_remote
    (strict fc : Bool) (env : RemoteEnv) (text : Option (List Char))
    (hs : strict = true)
    (hc : contains_strong_profanity (pyStrip (text.getD [])) = true) :
    moderate_text_trace strict fc env text = ⟨false, true, false⟩ := by
  subst hs
  by_cases h : pyStrip (text.getD []) = []
  · rw [h] at hc
    exact absurd hc (by decide)
  · unfold moderate_text_trace
    simp [h, hc]

/-- Witness for the amended claim C1: the spec's examples "kurwa" and
"k.u.r.w.a" are blocked by the local stage alone, under either policy. -/
theorem local_profanity_blocks_without_remote_witness :
    moderate_text_trace true false ⟨.err, .err⟩ (some "kurwa".data)
      = ⟨false, true, false⟩ ∧
    moderate_text_trace true true ⟨.ok [⟨true, []⟩], .err⟩ (some "k.u.r.w.a".data)
      = ⟨false, true, false⟩ :=
  ⟨local_profanity_blocks_without_remote true false ⟨.err, .err⟩
      (some "kurwa".data) rfl (by decide),
   local_profanity_blocks_without_remote true true ⟨.ok [⟨true, []⟩], .err⟩
      (some "k.u.r.w.a".data) rfl (by decide)⟩

/-- Helper: when the configuration/local-match pair does not block, the
boolean guard of the local stage is false. -/
theorem local_stage_passes (strict : Bool) (t : List Char)
    (hl : ¬ (strict = true ∧ contains_strong_profanity t = true)) :
    (strict && contains_strong_profanity t) = false := by
  by_cases hs : strict = true
  · by_cases hcq : contains_strong_profanity t = true
    · exact absurd ⟨hs, hcq⟩ hl
    · simp [Bool.not_eq_true] at hcq
      simp [hcq]
  · simp [Bool.not_eq_true] at hs
    simp [hs]

/-- Claim C2: when the primary moderation model raises and the fallback model
raises as well — on text that is nonempty and got past the local stage, so
the remote call is reached — `moderate_text` returns the configured policy
outcome, allowed under fail-open and blocked under fail-closed; being a total
boolean function it never propagates the remote error to the caller. -/
theorem moderate_text_remote_error_policy
    (strict fc : Bool) (env : RemoteEnv) (text : Option (List Char))
    (h1 : env.primary = .err) (h2 : env.secondary = .err)
    (ht : ¬ pyStrip (text.getD []) = [])
    (hl : ¬ (strict = true ∧
             contains_strong_profanity (pyStrip (text.getD [])) = true)) :
    moderate_text strict fc env text = !fc ∧
    (moderate_text_trace strict fc env text).remoteInvoked = true := by
  have hb := local_stage_passes strict (pyStrip (text.getD [])) hl
  have hcall : call_moderation_model env = .err := by
    unfold call_moderation_model
    rw [h1]
    exact h2
  unfold moderate_text moderate_text_trace
  simp [ht, hb, hcall]

/-- Witness for C2: with both models erroring on clean text, fail-open
(default) allows and fail-closed blocks. -/
theorem moderate_text_remote_error_policy_witness :
    moderate_text true false ⟨.err, .err⟩ (some "hello".data) = true ∧
    moderate_text true true ⟨.err, .err⟩ (some "hello world".data) = false := by
  constructor
  · exact (moderate_text_remote_error_policy true false ⟨.err, .err⟩
      (some "hello".data) rfl rfl (by decide) (by decide)).1
  · exact (moderate_text_remote_error_policy true true ⟨.err, .err⟩
      (some "hello world".data) rfl rfl (by decide) (by decide)).1

/-- Claim C5: on text that passed the local stage and received a successful
remote classification, `moderate_text` blocks exactly when the classifier's
flagged boolean is true or some active (truthy) category label, lower-cased,
is in the fixed `BLOCK_CATEGORIES` list; otherwise it allows. -/
theorem moderate_text_remote_verdict
    (strict fc : Bool) (env : RemoteEnv) (text : Option (List Char))
    (res : RemoteResult) (rest : List RemoteResult)
    (ht : ¬ pyStrip (text.getD []) = [])
    (hl : ¬ (strict = true ∧
             contains_strong_profanity (pyStrip (text.getD [])) = true))
    (hcall : call_moderation_model env = .ok (res :: rest)) :
    moderate_text strict fc env text
      = !(res.flagged ||
          ((res.categories.filter (fun kv => kv.2)).map (fun kv => kv.1)).any
            (fun c => BLOCK_CATEGORIES.contains (pyStrLower c))) := by
  have hb := local_stage_passes strict (pyStrip (text.getD [])) hl
  unfold moderate_text moderate_text_trace
  simp [ht, hb, hcall]

/-- Witness for C5: an active "Hate" label blocks (case-insensitively), a
flagged result blocks, and an unlisted active label with flagged false is
allowed. -/
theorem moderate_text_remote_verdict_witness :
    moderate_text true false ⟨.ok [⟨false, [("Hate".data, true)]⟩], .err⟩
      (some "hello".data) = false ∧
    moderate_text true false ⟨.ok [⟨true, []⟩], .err⟩
      (some "hello".data) = false ∧
    moderate_text true false ⟨.ok [⟨false, [("spam".data, true), ("hate".data, false)]⟩], .err⟩
      (some "hello".data) = true := by
  refine ⟨?_, ?_, ?_⟩
  · exact moderate_text_remote_verdict true false ⟨.ok [⟨false, [("Hate".data, true)]⟩], .err⟩
      (some "hello".data) ⟨false, [("Hate".data, true)]⟩ [] (by decide) (by decide) rfl
  · exact moderate_text_remote_verdict true false ⟨.ok [⟨true, []⟩], .err⟩
      (some "hello".data) ⟨true, []⟩ [] (by decide) (by decide) rfl
  · exact moderate_text_remote_verdict true false
      ⟨.ok [⟨false, [("spam".data, true), ("hate".data, false)]⟩], .err⟩
      (some "hello".data) ⟨false, [("spam".data, true), ("hate".data, false)]⟩ []
      (by decide) (by decide) rfl

/-! ## Theorems: the incident-creation pipeline -/

/-- Claim C4: coordinates outside [-90,90]×[-180,180] make `create_report`
fail with the 422 validation error and have no side effects: no token
resolution, no moderation call, no persisted row, no broadcast. -/
theorem create_report_invalid_coords
    (strict fc : Bool) (env : CreateEnv) (type_ : ReportType) (lat lng : ℚ)
    (name description : Option (List Char)) (photo : Option PhotoFile)
    (token : Option (List Char))
    (h : ¬ locationOk lat lng) :
    create_report strict fc env type_ lat lng name description photo token
      = { response := .error ⟨422, "Invalid coordinates. Latitude must be between -90 and 90, longitude between -180 and 180."⟩,
          resolvedUser := none, moderated := [], persisted := [], broadcasts := [] } := by
  unfold create_report
  simp [h]

/-- Witness for C4: latitude 1000 is rejected with 422 and no effect. -/
theorem create_report_invalid_coords_witness :
    create_report true false
        ⟨fun _ => .error (), fun _ => ⟨.err, .err⟩, fun _ => .ok [], []⟩
        .accident 1000 0 none none none none
      = { response := .error ⟨422, "Invalid coordinates. Latitude must be between -90 and 90, longitude between -180 and 180."⟩,
          resolvedUser := none, moderated := [], persisted := [], broadcasts := [] } :=
  create_report_invalid_coords true false
    ⟨fun _ => .error (), fun _ => ⟨.err, .err⟩, fun _ => .ok [], []⟩
    .accident 1000 0 none none none none (by decide)

/-- Claim C3: a create whose description or name is blocked by the moderation
gate fails with the content-rejected 400 error, persists no row and emits no
broadcast. -/
theorem create_report_blocked_content
    (strict fc : Bool) (env : CreateEnv) (type_ : ReportType) (lat lng : ℚ)
    (name description : Option (List Char)) (photo : Option PhotoFile)
    (token : Option (List Char))
    (hloc : locationOk lat lng)
    (hblk : (pyTruthyOpt description = true ∧
              moderate_text strict fc (env.remote description) description = false) ∨
            (pyTruthyOpt name = true ∧
              moderate_text strict fc (env.remote name) name = false)) :
    (∃ msg, (create_report strict fc env type_ lat lng name description photo token).response
        = .error ⟨400, msg⟩) ∧
    (create_report strict fc env type_ lat lng name description photo token).persisted = [] ∧
    (create_report strict fc env type_ lat lng name description photo token).broadcasts = [] := by
  by_cases hd : (pyTruthyOpt description &&
      !moderate_text strict fc (env.remote description) description) = true
  · refine ⟨⟨"Description contains inappropriate content.", ?_⟩, ?_, ?_⟩ <;>
      simp [create_report, create_pipeline, hloc, hd]
  · have hn : (pyTruthyOpt name &&
        !moderate_text strict fc (env.remote name) name) = true := by
      rcases hblk with ⟨h1, h2⟩ | ⟨h1, h2⟩
      · exact absurd (by simp [h1, h2]) hd
      · simp [h1, h2]
    have hd2 : (pyTruthyOpt description &&
        !moderate_text strict fc (env.remote description) description) = false :=
      Bool.eq_false_iff.mpr hd
    refine ⟨⟨"Name contains inappropriate content.", ?_⟩, ?_, ?_⟩ <;>
      simp [create_report, create_pipeline, hloc, hd2, hn]

/-- Witness for C3: a description containing a blocked stem is rejected with
400 and neither persists nor broadcasts. -/
theorem create_report_blocked_content_witness :
    (∃ msg, (create_report true false
        ⟨fun _ => .error (), fun _ => ⟨.err, .err⟩, fun _ => .ok [], []⟩
        .accident 50 19 none (some "kurwa".data) none none).response
        = .error ⟨400, msg⟩) ∧
    (create_report true false
        ⟨fun _ => .error (), fun _ => ⟨.err, .err⟩, fun _ => .ok [], []⟩
        .accident 50 19 none (some "kurwa".data) none none).persisted = [] ∧
    (create_report true false
        ⟨fun _ => .error (), fun _ => ⟨.err, .err⟩, fun _ => .ok [], []⟩
        .accident 50 19 none (some "kurwa".data) none none).broadcasts = [] :=
  create_report_blocked_content true false
    ⟨fun _ => .error (), fun _ => ⟨.err, .err⟩, fun _ => .ok [], []⟩
    .accident 50 19 none (some "kurwa".data) none none
    (by decide) (Or.inl ⟨by decide, by decide⟩)

/-- Claim C6: a caller token that fails to resolve (invalid or expired) is
swallowed: the `user` variable becomes none and the whole create runs exactly
as the anonymous (token-absent) create — every later pipeline step
unchanged. -/
theorem create_report_bad_token_anonymous
    (strict fc : Bool) (env : CreateEnv) (type_ : ReportType) (lat lng : ℚ)
    (name description : Option (List Char)) (photo : Option PhotoFile)
    (t : List Char)
    (hres : env.resolveUser t = .error ()) :
    create_report strict fc env type_ lat lng name description photo (some t)
      = create_report strict fc env type_ lat lng name description photo none ∧
    resolvedUserOf env (some t) = none := by
  have hu : resolvedUserOf env (some t) = none := by
    unfold resolvedUserOf
    cases t with
    | nil => rfl
    | cons c cs => simp [pyTruthyOpt, hres]
  refine ⟨?_, hu⟩
  have hnone : resolvedUserOf env none = none := rfl
  unfold create_report
  rw [hu, hnone]

/-- Witness for C6: an unresolvable token produces the same outcome as no
token at all. -/
theorem create_report_bad_token_anonymous_witness :
    create_report true false
        ⟨fun _ => .error (), fun _ => ⟨.ok [⟨false, []⟩], .err⟩, fun _ => .ok [], []⟩
        .delay 50 19 (some "Korek".data) none none (some "expired".data)
      = create_report true false
        ⟨fun _ => .error (), fun _ => ⟨.ok [⟨false, []⟩], .err⟩, fun _ => .ok [], []⟩
        .delay 50 19 (some "Korek".data) none none none ∧
    resolvedUserOf
        ⟨fun _ => .error (), fun _ => ⟨.ok [⟨false, []⟩], .err⟩, fun _ => .ok [], []⟩
        (some "expired".data) = none :=
  create_report_bad_token_anonymous true false
    ⟨fun _ => .error (), fun _ => ⟨.ok [⟨false, []⟩], .err⟩, fun _ => .ok [], []⟩
    .delay 50 19 (some "Korek".data) none none "expired".data rfl

/-- Helper: the response, moderated texts, persisted rows and broadcasts of
the pipeline do not depend on the resolved user, which only lands in the
`resolvedUser` field. -/
theorem create_pipeline_user_free
    (strict fc : Bool) (env : CreateEnv) (type_ : ReportType) (lat lng : ℚ)
    (name description : Option (List Char)) (photo : Option PhotoFile)
    (u1 u2 : Option UserRec) :
    (create_pipeline strict fc env type_ lat lng name description photo u1).response
      = (create_pipeline strict fc env type_ lat lng name description photo u2).response ∧
    (create_pipeline strict fc env type_ lat lng name description photo u1).moderated
      = (create_pipeline strict fc env type_ lat lng name description photo u2).moderated ∧
    (create_pipeline strict fc env type_ lat lng name description photo u1).persisted
      = (create_pipeline strict fc env type_ lat lng name description photo u2).persisted ∧
    (create_pipeline strict fc env type_ lat lng name description photo u1).broadcasts
      = (create_pipeline strict fc env type_ lat lng name description photo u2).broadcasts := by
  unfold create_pipeline
  by_cases hA : (pyTruthyOpt description &&
      !moderate_text strict fc (env.remote description) description) = true
  · simp [hA]
  · have hA2 := Bool.eq_false_iff.mpr hA
    by_cases hB : (pyTruthyOpt name &&
        !moderate_text strict fc (env.remote name) name) = true
    · simp [hA2, hB]
    · have hB2 := Bool.eq_false_iff.mpr hB
      rcases hps : photoStepOf env photo with e | pn
      · simp [hA2, hB2, hps]
      · simp [hA2, hB2, hps]

/-- Helper: every payload the pipeline hands to the broadcaster carries the
anonymous placeholder as its user field. -/
theorem create_pipeline_broadcast_anonim
    (strict fc : Bool) (env : CreateEnv) (type_ : ReportType) (lat lng : ℚ)
    (name description : Option (List Char)) (photo : Option PhotoFile)
    (user : Option UserRec) :
    ∀ p ∈ (create_pipeline strict fc env type_ lat lng name description photo user).broadcasts,
      p.user = "Anonim".data := by
  unfold create_pipeline
  by_cases hA : (pyTruthyOpt description &&
      !moderate_text strict fc (env.remote description) description) = true
  · simp [hA]
  · have hA2 := Bool.eq_false_iff.mpr hA
    by_cases hB : (pyTruthyOpt name &&
        !moderate_text strict fc (env.remote name) name) = true
    · simp [hA2, hB]
    · have hB2 := Bool.eq_false_iff.mpr hB
      rcases hps : photoStepOf env photo with e | pn
      · simp [hA2, hB2, hps]
      · simp [hA2, hB2, hps]

/-- Claim C10: two creates identical except for the caller token — one
resolving to a valid user, the other absent or unresolvable — pass identical
arguments to storage and emit identical broadcast payloads, whose user field
is always the anonymous placeholder: stored report and emitted event are
independent of the caller's identity. -/
theorem create_report_caller_identity_independent
    (strict fc : Bool) (env : CreateEnv) (type_ : ReportType) (lat lng : ℚ)
    (name description : Option (List Char)) (photo : Option PhotoFile)
    (t1 t2 : Option (List Char)) (u : UserRec)
    (h1 : pyTruthyOpt t1 = true)
    (hres1 : env.resolveUser (t1.getD []) = .ok u)
    (h2 : pyTruthyOpt t2 = false ∨ env.resolveUser (t2.getD []) = .error ()) :
    (create_report strict fc env type_ lat lng name description photo t1).persisted
      = (create_report strict fc env type_ lat lng name description photo t2).persisted ∧
    (create_report strict fc env type_ lat lng name description photo t1).broadcasts
      = (create_report strict fc env type_ lat lng name description photo t2).broadcasts ∧
    ∀ p ∈ (create_report strict fc env type_ lat lng name description photo t1).broadcasts,
      p.user = "Anonim".data := by
  unfold create_report
  by_cases hloc : locationOk lat lng
  · simp only [hloc, not_true_eq_false, if_false]
    exact ⟨(create_pipeline_user_free strict fc env type_ lat lng name description photo
              (resolvedUserOf env t1) (resolvedUserOf env t2)).2.2.1,
           (create_pipeline_user_free strict fc env type_ lat lng name description photo
              (resolvedUserOf env t1) (resolvedUserOf env t2)).2.2.2,
           create_pipeline_broadcast_anonim strict fc env type_ lat lng name description photo
              (resolvedUserOf env t1)⟩
  · simp [hloc]

/-- Witness for C10: a token resolving to a concrete user versus an
unresolvable token produce the same persisted rows and broadcasts. -/
theorem create_report_caller_identity_independent_witness :
    (create_report true false
        ⟨fun t => if t = "good".data then .ok ⟨1, "alice".data, .USER, [], false⟩ else .error (),
         fun _ => ⟨.ok [⟨false, []⟩], .err⟩, fun _ => .ok [], []⟩
        .blockage 50 19 none (some "Zator na moscie".data) none (some "good".data)).persisted
      = (create_report true false
        ⟨fun t => if t = "good".data then .ok ⟨1, "alice".data, .USER, [], false⟩ else .error (),
         fun _ => ⟨.ok [⟨false, []⟩], .err⟩, fun _ => .ok [], []⟩
        .blockage 50 19 none (some "Zator na moscie".data) none (some "bad".data)).persisted ∧
    (create_report true false
        ⟨fun t => if t = "good".data then .ok ⟨1, "alice".data, .USER, [], false⟩ else .error (),
         fun _ => ⟨.ok [⟨false, []⟩], .err⟩, fun _ => .ok [], []⟩
        .blockage 50 19 none (some "Zator na moscie".data) none (some "good".data)).broadcasts
      = (create_report true false
        ⟨fun t => if t = "good".data then .ok ⟨1, "alice".data, .USER, [], false⟩ else .error (),
         fun _ => ⟨.ok [⟨false, []⟩], .err⟩, fun _ => .ok [], []⟩
        .blockage 50 19 none (some "Zator na moscie".data) none (some "bad".data)).broadcasts ∧
    ∀ p ∈ (create_report true false
        ⟨fun t => if t = "good".data then .ok ⟨1, "alice".data, .USER, [], false⟩ else .error (),
         fun _ => ⟨.ok [⟨false, []⟩], .err⟩, fun _ => .ok [], []⟩
        .blockage 50 19 none (some "Zator na moscie".data) none (some "good".data)).broadcasts,
      p.user = "Anonim".data :=
  create_report_caller_identity_independent true false
    ⟨fun t => if t = "good".data then .ok ⟨1, "alice".data, .USER, [], false⟩ else .error (),
     fun _ => ⟨.ok [⟨false, []⟩], .err⟩, fun _ => .ok [], []⟩
    .blockage 50 19 none (some "Zator na moscie".data) none
    (some "good".data) (some "bad".data) ⟨1, "alice".data, .USER, [], false⟩
    (by decide) (by decide) (Or.inr (by decide))

/-- Claim C7: every successful create emits exactly one broadcast payload:
its display text is the description when nonempty, else the name when
nonempty, else the fixed placeholder; it carries the report's location, the
persisted report's like count and the clock's ISO-8601 UTC string with the
"Z" suffix. -/
theorem create_report_broadcast_payload
    (strict fc : Bool) (env : CreateEnv) (type_ : ReportType) (lat lng : ℚ)
    (name description : Option (List Char)) (photo : Option PhotoFile)
    (token : Option (List Char)) (obj : StoredReport)
    (hok : (create_report strict fc env type_ lat lng name description photo token).response
             = .ok obj) :
    (create_report strict fc env type_ lat lng name description photo token).broadcasts
      = [{ user := "Anonim".data,
           message := if pyTruthyOpt description then description.getD []
                      else if pyTruthyOpt name then name.getD []
                      else "Nowe zgłoszenie".data,
           lat := lat, lng := lng, likes := obj.likes,
           timestamp := env.nowIso ++ "Z".data }] := by
  unfold create_report at hok ⊢
  by_cases hloc : locationOk lat lng
  case neg => simp [hloc] at hok
  case pos =>
    simp only [hloc, not_true_eq_false, if_false] at hok ⊢
    unfold create_pipeline at hok ⊢
    by_cases hA : (pyTruthyOpt description &&
        !moderate_text strict fc (env.remote description) description) = true
    · simp [hA] at hok
    · have hA2 := Bool.eq_false_iff.mpr hA
      by_cases hB : (pyTruthyOpt name &&
          !moderate_text strict fc (env.remote name) name) = true
      · simp [hA2, hB] at hok
      · have hB2 := Bool.eq_false_iff.mpr hB
        rcases hps : photoStepOf env photo with e | pn
        · simp [hA2, hB2, hps] at hok
        · simp only [hA2, hB2, hps, Bool.false_eq_true, if_false,
            Except.ok.injEq] at hok ⊢
          subst hok
          rfl

/-- Witness for C7: a clean-text create broadcasts one payload with the
description as message, the coordinates, like count zero and the suffixed
timestamp. -/
theorem create_report_broadcast_payload_witness :
    (create_report true false
        ⟨fun _ => .error (), fun _ => ⟨.ok [⟨false, []⟩], .err⟩, fun _ => .ok [],
         "2024-01-01T00:00:00".data⟩
        .accident 50 19 none (some "Wypadek na A4".data) none none).broadcasts
      = [{ user := "Anonim".data, message := "Wypadek na A4".data,
           lat := 50, lng := 19, likes := 0,
           timestamp := "2024-01-01T00:00:00Z".data }] := by
  have h := create_report_broadcast_payload true false
    ⟨fun _ => .error (), fun _ => ⟨.ok [⟨false, []⟩], .err⟩, fun _ => .ok [],
     "2024-01-01T00:00:00".data⟩
    .accident 50 19 none (some "Wypadek na A4".data) none none
    (svcCreate ⟨.accident, 50, 19, none, some "Wypadek na A4".data, none⟩)
    (by decide)
  exact h.trans (by decide)

/-! ## Theorems: the self-or-permission rule -/

/-- Claim C8: both user-scoped mutations (update user details, delete user
account) pass their permission check whenever the target id equals the
caller's own stringified id, regardless of the caller's permission set; on a
different target they pass when the caller's effective permission set grants
`UPDATE_USER` and otherwise fail with the 403 Forbidden error. -/
theorem self_or_permission_rule (cur : UserRec) (user_id : List Char) :
    (user_id = (toString cur.id).data →
       update_user_details_check cur user_id = .ok () ∧
       delete_user_endpoint_check cur user_id = .ok ()) ∧
    (user_id ≠ (toString cur.id).data →
       (has_permission cur Permission.UPDATE_USER = true →
          update_user_details_check cur user_id = .ok () ∧
          delete_user_endpoint_check cur user_id = .ok ()) ∧
       (has_permission cur Permission.UPDATE_USER = false →
          update_user_details_check cur user_id
            = .error ⟨403, "Not enough permissions to update this user"⟩ ∧
          delete_user_endpoint_check cur user_id
            = .error ⟨403, "Not enough permissions to update this user"⟩)) := by
  unfold update_user_details_check delete_user_endpoint_check
  refine ⟨fun heq => ?_, fun hne => ⟨fun hp => ?_, fun hp => ?_⟩⟩
  · rw [heq]
    simp
  · simp [hp]
  · simp only [hp]
    rw [if_pos ⟨fun hcontra => hne hcontra.symm, by simp⟩]
    exact ⟨rfl, rfl⟩

/-- Witness for C8: user 7 may act on target "7" without permissions; on
target "8" a permissionless user is rejected with 403 while an explicit
`UPDATE_USER` grant and the ADMIN role baseline both pass. -/
theorem self_or_permission_rule_witness :
    (update_user_details_check ⟨7, "alice".data, .USER, [], false⟩ "7".data = .ok () ∧
     delete_user_endpoint_check ⟨7, "alice".data, .USER, [], false⟩ "7".data = .ok ()) ∧
    (update_user_details_check ⟨7, "alice".data, .USER, [], false⟩ "8".data
       = .error ⟨403, "Not enough permissions to update this user"⟩ ∧
     delete_user_endpoint_check ⟨7, "alice".data, .USER, [], false⟩ "8".data
       = .error ⟨403, "Not enough permissions to update this user"⟩) ∧
    update_user_details_check ⟨7, "alice".data, .USER, [.UPDATE_USER], false⟩ "8".data
      = .ok () ∧
    delete_user_endpoint_check ⟨7, "alice".data, .ADMIN, [], false⟩ "8".data = .ok () :=
  ⟨(self_or_permission_rule ⟨7, "alice".data, .USER, [], false⟩ "7".data).1 (by decide),
   ((self_or_permission_rule ⟨7, "alice".data, .USER, [], false⟩ "8".data).2
      (by decide)).2 (by decide),
   (((self_or_permission_rule ⟨7, "alice".data, .USER, [.UPDATE_USER], false⟩ "8".data).2
      (by decide)).1 (by decide)).1,
   (((self_or_permission_rule ⟨7, "alice".data, .ADMIN, [], false⟩ "8".data).2
      (by decide)).1 (by decide)).2⟩

end TravelHi
